import Mathlib

/- A shallow embedding of the server actions in `app/lib/actions.ts`:
   the zod form schemas, the derived values (amount in cents, sanitized and
   timestamped filenames), and the six mutation actions together with their
   store / filesystem / cache-invalidation / navigation effects. -/

/-- An uploaded file as the `File` Web API exposes it to the actions:
its original name, its byte size, and its MIME type string. -/
structure FileV where
  name : String
  size : Nat
  type : String
deriving DecidableEq

/-- A raw form value.  `FormData.get` returns a string, a `File`, or `null`
(missing field).  `jsUndefined` is JavaScript `undefined` (never produced by
`FormData.get`, but produced by reading an absent object key, and
distinguished from `null` by zod), and `fileList` is a `FileList`
(handled by the `image_upload` transform). -/
inductive FormVal where
  | str (s : String)
  | file (f : FileV)
  | fileList (l : List FileV)
  | null
  | jsUndefined
deriving DecidableEq

/-- JavaScript truthiness of a form value: `null`, `undefined` and the empty
string are falsy; every `File` or `FileList` object is truthy. -/
def FormVal.falsy : FormVal → Bool
  | .str s => s == ""
  | .null => true
  | .jsUndefined => true
  | _ => false

/-- An exact decimal number of value `num / 10 ^ exp`: the embedding of the
finite JavaScript numbers this code manipulates (coerced form amounts and
their scaling by 100).  Kept in canonical form (`exp = 0`, or `num` not
divisible by 10) so that equal values have equal representations. -/
structure DecNum where
  num : Int
  exp : Nat
deriving DecidableEq

/-- Strip trailing powers of ten to reach the canonical form. -/
def canonDec : Int → Nat → DecNum
  | n, 0 => ⟨n, 0⟩
  | n, e + 1 => if n % 10 = 0 then canonDec (n / 10) e else ⟨n, e + 1⟩

/-- The rational value of an exact decimal. -/
def DecNum.val (d : DecNum) : ℚ := (d.num : ℚ) / 10 ^ d.exp

/-- The derived-value computation `amount * 100` on exact decimals. -/
def DecNum.mul100 (d : DecNum) : DecNum := canonDec (d.num * 100) d.exp

/-- The JavaScript comparison `amount > 0` (the zod `.gt(0)` check); the
denominator `10 ^ exp` is positive, so only the numerator's sign matters. -/
def DecNum.gtZero (d : DecNum) : Bool := decide (0 < d.num)

/-- Numeric value of a run of ASCII digit characters. -/
def digitsToNat (ds : List Char) : Nat :=
  ds.foldl (fun a c => 10 * a + (c.toNat - 48)) 0

/-- Whitespace trimming as JavaScript `Number(string)` performs it before
parsing. -/
def trimChars (cs : List Char) : List Char :=
  ((cs.dropWhile Char.isWhitespace).reverse.dropWhile Char.isWhitespace).reverse

/-- Combine a parsed mantissa `sign * mant / 10 ^ flen` with a decimal
exponent `e` into a canonical exact decimal. -/
def applyExponent (sign : Int) (mant : Nat) (flen : Nat) (e : Int) : DecNum :=
  let net : Int := e - flen
  if 0 ≤ net then canonDec (sign * mant * 10 ^ net.toNat) 0
  else canonDec (sign * mant) (Int.toNat (-net))

/-- The tail of a JavaScript decimal literal after its optional sign: digits,
an optional fractional part, and an optional decimal exponent.  `none` is NaN
(no digit at all, or trailing garbage). -/
def parseSignedTail (sign : Int) (cs : List Char) : Option DecNum :=
  let ip := cs.takeWhile Char.isDigit
  let r1 := cs.dropWhile Char.isDigit
  let fr : List Char × List Char :=
    match r1 with
    | '.' :: r => (r.takeWhile Char.isDigit, r.dropWhile Char.isDigit)
    | _ => ([], r1)
  if ip.isEmpty && fr.1.isEmpty then none
  else
    match fr.2 with
    | [] => some (applyExponent sign (digitsToNat (ip ++ fr.1)) fr.1.length 0)
    | c :: r3 =>
      if c == 'e' || c == 'E' then
        let se : Int × List Char :=
          match r3 with
          | '+' :: r => (1, r)
          | '-' :: r => (-1, r)
          | _ => (1, r3)
        let ed := se.2.takeWhile Char.isDigit
        if ed.isEmpty || !(se.2.dropWhile Char.isDigit).isEmpty then none
        else some (applyExponent sign (digitsToNat (ip ++ fr.1)) fr.1.length
          (se.1 * (digitsToNat ed : Int)))
      else none

/-- JavaScript `Number(string)`: trim whitespace, the empty string is 0, then
an optionally signed decimal literal; anything else is NaN (`none`).  Hex,
octal and binary literals and `Infinity`, which no invoice form produces, are
also mapped to `none`. -/
def jsStringToNumber (s : String) : Option DecNum :=
  let cs := trimChars s.data
  if cs.isEmpty then some ⟨0, 0⟩
  else
    match cs with
    | '+' :: r => parseSignedTail 1 r
    | '-' :: r => parseSignedTail (-1) r
    | _ => parseSignedTail 1 cs

/-- JavaScript `Number(value)` as `z.coerce.number()` applies it to a raw
form value: `null` coerces to 0, a string parses as a decimal literal, a
`File` or `FileList` stringifies to a non-numeric form (NaN), and
`undefined` is NaN. -/
def jsNumber : FormVal → Option DecNum
  | .str s => jsStringToNumber s
  | .null => some ⟨0, 0⟩
  | _ => none

deriving instance DecidableEq for Except

/-- The invoice status values accepted by `z.enum(['pending', 'paid'])`. -/
inductive Status where
  | pending
  | paid
deriving DecidableEq

def Status.toStr : Status → String
  | .pending => "pending"
  | .paid => "paid"

/-- `customerId: z.string({invalid_type_error: 'Please select a customer.'})`:
every string passes; `undefined` gets zod's default required message; any
other non-string gets the configured invalid-type message. -/
def zCustomerId : FormVal → Except String String
  | .str s => .ok s
  | .jsUndefined => .error "Required"
  | _ => .error "Please select a customer."

/-- `amount: z.coerce.number().gt(0, ...)`: coerce with JavaScript `Number`;
NaN fails the number type check with zod's default message, and a number that
is not `> 0` fails the `gt` check with the configured message. -/
def zAmount (v : FormVal) : Except String DecNum :=
  match jsNumber v with
  | none => .error "Expected number, received nan"
  | some d =>
    if d.gtZero then .ok d
    else .error "Please enter an amount greater than $0."

/-- `status: z.enum(['pending', 'paid'], {invalid_type_error: ...})`: the two
enum strings pass; another string fails the enum-value check with zod's
default message; `undefined` is required-missing; any other non-string gets
the configured invalid-type message. -/
def zStatus : FormVal → Except String Status
  | .str "pending" => .ok .pending
  | .str "paid" => .ok .paid
  | .str s =>
    .error ("Invalid enum value. Expected 'pending' | 'paid', received '"
      ++ s ++ "'")
  | .jsUndefined => .error "Required"
  | _ => .error "Please select an invoice status."

/-- `name: z.string({required_error: "Ingrese el nombre del cliente",
invalid_type_error: "Caracteres no válidos"})`: every string (the empty one
included) passes; the required message fires only for `undefined`; `null` or
an object is an invalid type. -/
def zName : FormVal → Except String String
  | .str s => .ok s
  | .jsUndefined => .error "Ingrese el nombre del cliente"
  | _ => .error "Caracteres no válidos"

/-- A plain `z.string()` field (`image_url`), with zod's default messages. -/
def zStringField : FormVal → Except String String
  | .str s => .ok s
  | .jsUndefined => .error "Required"
  | .null => .error "Expected string, received null"
  | _ => .error "Expected string, received object"

/-- Characters the zod email pattern allows anywhere in the local part. -/
def isLocalChar (c : Char) : Bool :=
  c.isAlpha || c.isDigit || c == '_' || c == '+' || c == '-' || c == '.' ||
    c == Char.ofNat 39

/-- Characters the zod email pattern allows as the last local-part
character (no dot, no apostrophe). -/
def isLocalEndChar (c : Char) : Bool :=
  c.isAlpha || c.isDigit || c == '_' || c == '+' || c == '-'

/-- No two consecutive dots (the pattern's global lookahead). -/
def noDoubleDot : List Char → Bool
  | [] => true
  | [_] => true
  | a :: b :: rest => !(a == '.' && b == '.') && noDoubleDot (b :: rest)

/-- Split a character list on a separator character. -/
def splitOnChar (sep : Char) : List Char → List (List Char)
  | [] => [[]]
  | c :: rest =>
    let r := splitOnChar sep rest
    if c == sep then [] :: r
    else
      match r with
      | [] => [[c]]
      | g :: gs => (c :: g) :: gs

/-- Local part of the zod email pattern: nonempty, no leading dot, allowed
characters only, ending in a non-dot non-apostrophe character, no double
dot. -/
def checkLocal : List Char → Bool
  | [] => false
  | c :: rest =>
    c != '.' && (c :: rest).all isLocalChar &&
      isLocalEndChar ((c :: rest).getLastD c) && noDoubleDot (c :: rest)

/-- One domain label: alphanumeric first character, then alphanumerics and
hyphens. -/
def checkLabel : List Char → Bool
  | [] => false
  | c :: rest =>
    (c.isAlpha || c.isDigit) &&
      rest.all (fun x => x.isAlpha || x.isDigit || x == '-')

/-- The final domain segment: at least two letters. -/
def checkTld (t : List Char) : Bool := t.length ≥ 2 && t.all Char.isAlpha

/-- Domain of the zod email pattern: one or more labels, then the final
letters-only segment. -/
def checkDomain (d : List Char) : Bool :=
  let parts := splitOnChar '.' d
  decide (parts.length ≥ 2) && parts.dropLast.all checkLabel &&
    checkTld (parts.getLastD [])

/-- `z.string().email()`: the zod email regular expression, modelled as an
executable checker — exactly one `@`, a valid local part and a valid
domain. -/
def isEmail (s : String) : Bool :=
  match splitOnChar '@' s.data with
  | [lp, dp] => checkLocal lp && checkDomain dp
  | _ => false

/-- `email: z.string().email({message: "Email no válido"})`. -/
def zEmail : FormVal → Except String String
  | .str s => if isEmail s then .ok s else .error "Email no válido"
  | .jsUndefined => .error "Required"
  | .null => .error "Expected string, received null"
  | _ => .error "Expected string, received object"

/-- The `image_upload` transform: a `File` passes through, a `FileList` is
unwrapped to its first element (`val[0]`, which is `undefined` when the list
is empty), anything else becomes `null`. -/
def imageUploadTransform : FormVal → Option FileV
  | .file f => some f
  | .fileList l => l.head?
  | _ => none

/-- MIME types the `superRefine` accepts. -/
def allowedImageMimes : List String :=
  ["image/jpeg", "image/png", "image/webp", "image/jpg"]

/-- The `superRefine` on `image_upload`: a non-`File` transformed value is the
single fatal issue `"Not a file"` and nothing else runs; for a `File`, the
size check and the MIME check each contribute an issue, in that order, without
short-circuiting each other. -/
def imageUploadCheck (v : FormVal) : Except (List String) FileV :=
  match imageUploadTransform v with
  | none => .error ["Not a file"]
  | some f =>
    match (if f.size > 5 * 1024 * 1024 then ["Max file size allowed is 5MB"]
           else []) ++
          (if allowedImageMimes.contains f.type then []
           else ["File must be an image (jpeg, jpg, png, webp)"]) with
    | [] => .ok f
    | iss => .error iss

/-- The flattened `image_upload` field errors a raw value produces. -/
def imageUploadIssues (v : FormVal) : List String :=
  match imageUploadCheck v with
  | .ok _ => []
  | .error l => l

/-- Contribution of one field to `error.flatten().fieldErrors`: its message
when the field failed, the empty list when it passed (zod omits the key; the
empty list models the absent key). -/
def exErrs {α : Type} : Except String α → List String
  | .ok _ => []
  | .error m => [m]

/-- Same, for the `image_upload` field, which can carry several issues. -/
def exErrsL {α : Type} : Except (List String) α → List String
  | .ok _ => []
  | .error l => l

/-- Flattened field errors of the invoice form schema. -/
structure InvoiceErrors where
  customerId : List String
  amount : List String
  status : List String
deriving DecidableEq

/-- A validated invoice submission. -/
structure InvoiceFields where
  customerId : String
  amount : DecNum
  status : Status
deriving DecidableEq

/-- `CreateInvoice.safeParse` and `UpdateInvoice.safeParse` (both schemas are
`FormSchema.omit({id, date})`): validate the three submitted fields and
collect the flattened field errors on failure. -/
def parseInvoiceFields (cid amt st : FormVal) :
    Except InvoiceErrors InvoiceFields :=
  match zCustomerId cid, zAmount amt, zStatus st with
  | .ok c, .ok a, .ok s => .ok ⟨c, a, s⟩
  | rc, ra, rs => .error ⟨exErrs rc, exErrs ra, exErrs rs⟩

/-- Flattened field errors of the customer form schema. -/
structure CustomerErrors where
  name : List String
  email : List String
  image_url : List String
  image_upload : List String
deriving DecidableEq

/-- A validated customer submission. -/
structure CustomerFields where
  name : String
  email : String
  image_url : String
  upload : FileV
deriving DecidableEq

/-- `UpdateCustomer.safeParse` (`FormSchemaCustomer.omit({id})`): validate the
four submitted fields and collect the flattened field errors on failure. -/
def parseCustomerFields (nv ev iv uv : FormVal) :
    Except CustomerErrors CustomerFields :=
  match zName nv, zEmail ev, zStringField iv, imageUploadCheck uv with
  | .ok n, .ok e, .ok i, .ok f => .ok ⟨n, e, i, f⟩
  | rn, re, ri, ru => .error ⟨exErrs rn, exErrs re, exErrs ri, exErrsL ru⟩

/-- `CreateCustomer.safeParse`: the same schema, but `createCustomer` builds
its input object without an `image_upload` key, so that field is validated at
`undefined`. -/
def parseCreateCustomer (nv ev iv : FormVal) :
    Except CustomerErrors CustomerFields :=
  parseCustomerFields nv ev iv .jsUndefined

/-- Decimal digit characters of `n`, most significant first; structural in
the fuel argument so that concrete instances evaluate in the kernel. -/
def decDigitsAux : Nat → Nat → List Char
  | 0, _ => []
  | fuel + 1, n =>
    if n < 10 then [Nat.digitChar n]
    else decDigitsAux fuel (n / 10) ++ [Nat.digitChar (n % 10)]

/-- JavaScript `String(n)` for a nonnegative integer. -/
def natStr (n : Nat) : String := ⟨decDigitsAux (n + 1) n⟩

/-- JavaScript `String.prototype.padStart(len, '0')`. -/
def padStart (len : Nat) (s : String) : String :=
  ⟨List.replicate (len - s.length) '0' ++ s.data⟩

/-- The wall-clock reading the upload takes (the `new Date()` fields as the
code reads them; `month` is the 1-based `getMonth() + 1`). -/
structure Clock where
  year : Nat
  month : Nat
  day : Nat
  hours : Nat
  minutes : Nat
  seconds : Nat
  ms : Nat
deriving DecidableEq

/-- A realistic clock reading: a four-digit year and in-range calendar and
time-of-day fields. -/
def Clock.valid (c : Clock) : Prop :=
  1000 ≤ c.year ∧ c.year ≤ 9999 ∧ 1 ≤ c.month ∧ c.month ≤ 12 ∧
    1 ≤ c.day ∧ c.day ≤ 31 ∧ c.hours ≤ 23 ∧ c.minutes ≤ 59 ∧
    c.seconds ≤ 59 ∧ c.ms ≤ 999

instance (c : Clock) : Decidable c.valid := by
  unfold Clock.valid
  infer_instance

/-- The `${year}${month}${day}_${hours}${minutes}${seconds}_${milliseconds}`
timestamp, with the two- and three-digit zero padding the code applies. -/
def timestampString (c : Clock) : String :=
  natStr c.year ++ padStart 2 (natStr c.month) ++ padStart 2 (natStr c.day)
    ++ "_" ++ padStart 2 (natStr c.hours) ++ padStart 2 (natStr c.minutes)
    ++ padStart 2 (natStr c.seconds) ++ "_" ++ padStart 3 (natStr c.ms)

/-- Characters the sanitizing regular expression `[^a-zA-Z0-9-_]` keeps. -/
def keepChar (c : Char) : Bool := c.isAlpha || c.isDigit || c == '-' || c == '_'

/-- `replace(/[^a-zA-Z0-9-_]/g, '_')`: every character outside the class is
replaced by an underscore. -/
def sanitizeBase (s : String) : String :=
  ⟨s.data.map (fun c => if keepChar c then c else '_')⟩

/-- Index, from the start, of the last `'.'` of a character list, if any. -/
def lastDotIdx : List Char → Option Nat
  | [] => none
  | c :: rest =>
    match lastDotIdx rest with
    | some i => some (i + 1)
    | none => if c == '.' then some 0 else none

/-- Node `path.extname` on a POSIX path: the substring of the last path
component from its last dot; empty when there is no dot, when the only dot
leads the component, or when the component is `".."`. -/
def extname (p : String) : String :=
  let b := (splitOnChar '/' p.data).getLastD []
  match lastDotIdx b with
  | none => ""
  | some i => if i == 0 || b == ['.', '.'] then "" else ⟨b.drop i⟩

/-- Node `path.basename(p, ext)` on a POSIX path not ending in a separator:
the last component, with the suffix `ext` removed when it is a proper
suffix. -/
def basenameMinus (p : String) (ext : String) : String :=
  let b := (splitOnChar '/' p.data).getLastD []
  let e := ext.data
  if b.length > e.length && b.drop (b.length - e.length) == e then
    ⟨b.take (b.length - e.length)⟩
  else ⟨b⟩

/-- `sanitizeAndTimestampFilename`: take the extension via `path.extname` and
the basename without it, sanitize the basename per character, and produce
`${nameWithoutExtension}_${timestamp}${extension}`. -/
def sanitizeAndTimestampFilename (originalFilename : String) (now : Clock) :
    String :=
  sanitizeBase (basenameMinus originalFilename (extname originalFilename))
    ++ "_" ++ timestampString now ++ extname originalFilename

/-- A bound SQL parameter value. -/
inductive SqlVal where
  | s (v : String)
  | n (v : DecNum)
deriving DecidableEq

/-- An externally observable step the action attempts, in order: a store
statement, a file write, or a cache invalidation (`revalidatePath`). -/
inductive Effect where
  | sqlInsert (table : String) (cols : List (String × SqlVal))
  | sqlUpdate (table : String) (sets : List (String × SqlVal)) (whereId : String)
  | sqlDelete (table : String) (whereId : String)
  | fileWrite (path : String)
  | revalidate (path : String)
deriving DecidableEq

/-- What an action invocation comes back with: a validation failure carrying
field errors, a plain `{message}` failure, a redirect (success), an
`undefined` return (the deletes), or an uncaught exception propagating to
the caller. -/
inductive ActionResult where
  | invoiceFailure (errors : InvoiceErrors) (message : String)
  | customerFailure (errors : CustomerErrors) (message : String)
  | msg (message : String)
  | redirected (dest : String)
  | completed
  | thrown
deriving DecidableEq

/-- `createInvoice`: validate, derive `amountInCents` and today's date,
insert into `invoices` (a store failure is caught and converted into a
message), then invalidate and redirect.  `dbOk` models whether the store
statement succeeds, and `today` is `new Date().toISOString().split('T')[0]`. -/
def createInvoice (dbOk : Bool) (customerId amount status : FormVal)
    (today : String) : ActionResult × List Effect :=
  match parseInvoiceFields customerId amount status with
  | .error e =>
    (.invoiceFailure e "Missing Fields. Failed to Create Invoice.", [])
  | .ok f =>
    let amountInCents := f.amount.mul100
    let ins := Effect.sqlInsert "invoices"
      [("customer_id", .s f.customerId), ("amount", .n amountInCents),
       ("status", .s f.status.toStr), ("date", .s today)]
    if dbOk then
      (.redirected "/dashboard/invoices", [ins, .revalidate "/dashboard/invoices"])
    else (.msg "Database Error: Failed to Create Invoice.", [ins])

/-- `updateInvoice`: validate, derive `amountInCents`, update the columns
`customer_id`, `amount` and `status` of the row `id` (a store failure is
caught and converted into a message), then invalidate and redirect. -/
def updateInvoice (dbOk : Bool) (id : String)
    (customerId amount status : FormVal) : ActionResult × List Effect :=
  match parseInvoiceFields customerId amount status with
  | .error e =>
    (.invoiceFailure e "Missing Fields. Failed to Update Invoice.", [])
  | .ok f =>
    let amountInCents := f.amount.mul100
    let upd := Effect.sqlUpdate "invoices"
      [("customer_id", .s f.customerId), ("amount", .n amountInCents),
       ("status", .s f.status.toStr)] id
    if dbOk then
      (.redirected "/dashboard/invoices", [upd, .revalidate "/dashboard/invoices"])
    else (.msg "Database Error: Failed to Update Invoice.", [upd])

/-- `deleteInvoice`: one DELETE with no try/catch — a store failure
propagates uncaught and the invalidation is skipped. -/
def deleteInvoice (dbOk : Bool) (id : String) : ActionResult × List Effect :=
  let del := Effect.sqlDelete "invoices" id
  if dbOk then (.completed, [del, .revalidate "/dashboard/invoices"])
  else (.thrown, [del])

/-- `createCustomer`: validate (the un-omitted schema still contains
`image_upload`, validated at `undefined`), insert into `customers` (a store
failure is caught and converted into a message), then invalidate and
redirect. -/
def createCustomer (dbOk : Bool) (name email image_url : FormVal) :
    ActionResult × List Effect :=
  match parseCreateCustomer name email image_url with
  | .error e =>
    (.customerFailure e "Missing Fields. Failed to Create Invoice.", [])
  | .ok f =>
    let ins := Effect.sqlInsert "customers"
      [("name", .s f.name), ("email", .s f.email), ("image_url", .s f.image_url)]
    if dbOk then
      (.redirected "/dashboard/customers", [ins, .revalidate "/dashboard/customers"])
    else (.msg "Database Error: Failed to Create Customer.", [ins])

/-- `updateCustomer`: validate, reject a falsy raw `image_upload`, write the
uploaded bytes under the sanitized timestamped filename (a failed write
returns a message before any store statement is attempted), update `name`,
`email` and the derived `/customers/<filename>` path of the row `id` (a
store failure is caught and converted into a message), then invalidate and
redirect.  `fsOk` models whether the file write succeeds. -/
def updateCustomer (dbOk fsOk : Bool) (id : String)
    (name email image_url image_upload : FormVal) (now : Clock) :
    ActionResult × List Effect :=
  match parseCustomerFields name email image_url image_upload with
  | .error e =>
    (.customerFailure e "Missing Fields. Failed to Update Invoice.", [])
  | .ok f =>
    if image_upload.falsy then (.msg "No files received.", [])
    else
      let filename := sanitizeAndTimestampFilename f.upload.name now
      let wr := Effect.fileWrite ("/public/customers/" ++ filename)
      if !fsOk then (.msg "Error occured al grabar archivo.", [wr])
      else
        let upd := Effect.sqlUpdate "customers"
          [("name", .s f.name), ("email", .s f.email),
           ("image_url", .s ("/customers/" ++ filename))] id
        if dbOk then
          (.redirected "/dashboard/customers", [wr, upd, .revalidate "/dashboard/customers"])
        else (.msg "Database Error: Failed to Update Customer.", [wr, upd])

/-- `deleteCustomer`: one DELETE with no try/catch — a store failure
propagates uncaught and the invalidation is skipped. -/
def deleteCustomer (dbOk : Bool) (id : String) : ActionResult × List Effect :=
  let del := Effect.sqlDelete "customers" id
  if dbOk then (.completed, [del, .revalidate "/dashboard/customers"])
  else (.thrown, [del])

lemma digitChar_isDigit {m : Nat} (h : m < 10) : (Nat.digitChar m).isDigit := by
  interval_cases m <;> decide

lemma decDigitsAux_digits : ∀ f n : Nat, ∀ c ∈ decDigitsAux f n, c.isDigit := by
  intro f
  induction f with
  | zero => intro n c hc; simp [decDigitsAux] at hc
  | succ f ih =>
    intro n c hc
    by_cases h : n < 10
    · simp [decDigitsAux, h] at hc
      subst hc
      exact digitChar_isDigit h
    · simp [decDigitsAux, h] at hc
      rcases hc with hc | hc
      · exact ih _ _ hc
      · subst hc
        exact digitChar_isDigit (Nat.mod_lt _ (by omega))

lemma decDigitsAux_len_le : ∀ f k n : Nat, n < 10 ^ k → 1 ≤ k →
    (decDigitsAux f n).length ≤ k := by
  intro f
  induction f with
  | zero => intro k n _ _; simp [decDigitsAux]
  | succ f ih =>
    intro k n hn hk
    by_cases h : n < 10
    · simpa [decDigitsAux, h] using hk
    · have hk2 : 2 ≤ k := by
        rcases Nat.lt_or_ge k 2 with hlt | hge
        · interval_cases k <;> simp_all <;> omega
        · exact hge
      have hdiv : n / 10 < 10 ^ (k - 1) := by
        rw [Nat.div_lt_iff_lt_mul (by omega)]
        have hp : 10 ^ (k - 1) * 10 = 10 ^ k := by
          rw [← pow_succ]
          congr 1
          omega
        omega
      have h1 := ih (k - 1) (n / 10) hdiv (by omega)
      simp [decDigitsAux, h]
      omega

lemma decDigitsAux_len_ge : ∀ f n k : Nat, 10 ^ k ≤ n → n < f →
    k + 1 ≤ (decDigitsAux f n).length := by
  intro f
  induction f with
  | zero => intro n k _ h; omega
  | succ f ih =>
    intro n k hk hn
    by_cases h : n < 10
    · have hk0 : k = 0 := by
        by_contra hc
        have : 10 ≤ 10 ^ k := by
          calc 10 = 10 ^ 1 := by norm_num
          _ ≤ 10 ^ k := Nat.pow_le_pow_right (by omega) (by omega)
        omega
      subst hk0
      simp [decDigitsAux, h]
    · simp [decDigitsAux, h]
      rcases Nat.eq_zero_or_pos k with rfl | hkpos
      · omega
      · have h1 : 10 ^ (k - 1) ≤ n / 10 := by
          rw [Nat.le_div_iff_mul_le (by omega)]
          have hp : 10 ^ (k - 1) * 10 = 10 ^ k := by
            rw [← pow_succ]
            congr 1
            omega
          omega
        have h2 : n / 10 < f := by
          have := Nat.div_lt_self (show 0 < n by omega) (show 1 < 10 by omega)
          omega
        have := ih (n / 10) (k - 1) h1 h2
        omega

lemma natStr_digits (n : Nat) : ∀ c ∈ (natStr n).data, c.isDigit :=
  decDigitsAux_digits (n + 1) n

lemma natStr_len_le {n k : Nat} (hn : n < 10 ^ k) (hk : 1 ≤ k) :
    (natStr n).length ≤ k :=
  decDigitsAux_len_le (n + 1) k n hn hk

lemma natStr_len_ge {n k : Nat} (hn : 10 ^ k ≤ n) : k + 1 ≤ (natStr n).length :=
  decDigitsAux_len_ge (n + 1) n k hn (by omega)

lemma natStr_len_four {n : Nat} (h1 : 1000 ≤ n) (h2 : n ≤ 9999) :
    (natStr n).length = 4 := by
  have e4 : (10 : ℕ) ^ 4 = 10000 := by norm_num
  have e3 : (10 : ℕ) ^ 3 = 1000 := by norm_num
  have ha := natStr_len_le (n := n) (k := 4) (by omega) (by omega)
  have hb := natStr_len_ge (n := n) (k := 3) (by omega)
  omega

lemma strLength_mk (l : List Char) : (String.mk l).length = l.length := rfl

lemma strLength_data (s : String) : s.length = s.data.length := rfl

lemma padStart_len {k : Nat} {s : String} (h : s.length ≤ k) :
    (padStart k s).length = k := by
  have hd := strLength_data s
  unfold padStart
  rw [strLength_mk, List.length_append, List.length_replicate]
  omega

lemma padStart_digits {k : Nat} {s : String} (h : ∀ c ∈ s.data, c.isDigit) :
    ∀ c ∈ (padStart k s).data, c.isDigit := by
  intro c hc
  simp [padStart] at hc
  rcases hc with hc | hc
  · rcases hc with ⟨-, rfl⟩
    decide
  · exact h c hc

lemma canonDec_val : ∀ (e : Nat) (n : Int), (canonDec n e).val = (n : ℚ) / 10 ^ e := by
  intro e
  induction e with
  | zero => intro n; simp [canonDec, DecNum.val]
  | succ e ih =>
    intro n
    by_cases h : n % 10 = 0
    · have hd : (10 : Int) ∣ n := Int.dvd_of_emod_eq_zero h
      obtain ⟨m, rfl⟩ := hd
      rw [show canonDec (10 * m) (e + 1) = canonDec (10 * m / 10) e by
        simp [canonDec, h]]
      rw [Int.mul_ediv_cancel_left m (by norm_num)]
      rw [ih m]
      push_cast
      rw [pow_succ]
      field_simp
      ring
    · simp [canonDec, h, DecNum.val]

lemma mul100_val (d : DecNum) : d.mul100.val = 100 * d.val := by
  unfold DecNum.mul100
  rw [canonDec_val]
  unfold DecNum.val
  push_cast
  ring

lemma contains_iff_mem (l : List String) (x : String) :
    l.contains x = true ↔ x ∈ l := by
  unfold List.contains
  exact List.elem_iff

lemma parseInvoiceFields_amount_error (cid st : FormVal) {amt : FormVal}
    {m : String} (h : zAmount amt = .error m) :
    parseInvoiceFields cid amt st =
      .error ⟨exErrs (zCustomerId cid), [m], exErrs (zStatus st)⟩ := by
  unfold parseInvoiceFields
  rw [h]
  cases zCustomerId cid <;> cases zStatus st <;> rfl

lemma parseCreateCustomer_error (nv ev iv : FormVal) :
    parseCreateCustomer nv ev iv =
      .error ⟨exErrs (zName nv), exErrs (zEmail ev), exErrs (zStringField iv),
        ["Not a file"]⟩ := by
  unfold parseCreateCustomer parseCustomerFields
  rw [show imageUploadCheck .jsUndefined = .error ["Not a file"] from rfl]
  cases zName nv <;> cases zEmail ev <;> cases zStringField iv <;> rfl

lemma parseCustomerFields_image_upload {nv ev iv uv : FormVal}
    {e : CustomerErrors} (h : parseCustomerFields nv ev iv uv = .error e) :
    e.image_upload = imageUploadIssues uv := by
  unfold parseCustomerFields at h
  unfold imageUploadIssues
  cases hn : zName nv <;> rw [hn] at h <;>
    cases he : zEmail ev <;> rw [he] at h <;>
    cases hi : zStringField iv <;> rw [hi] at h <;>
    cases hu : imageUploadCheck uv <;> rw [hu] at h <;>
    first
      | (injection h with h2; subst h2; rfl)
      | injection h

lemma createInvoice_parse_error {cid amt st : FormVal} {e : InvoiceErrors}
    (dbOk : Bool) (today : String)
    (h : parseInvoiceFields cid amt st = .error e) :
    createInvoice dbOk cid amt st today =
      (.invoiceFailure e "Missing Fields. Failed to Create Invoice.", []) := by
  unfold createInvoice
  rw [h]

lemma updateInvoice_parse_error {cid amt st : FormVal} {e : InvoiceErrors}
    (dbOk : Bool) (id : String)
    (h : parseInvoiceFields cid amt st = .error e) :
    updateInvoice dbOk id cid amt st =
      (.invoiceFailure e "Missing Fields. Failed to Update Invoice.", []) := by
  unfold updateInvoice
  rw [h]

/-- Claim C1, counterexample: for the non-numeric amount `"abc"` the action
does fail validation with an amount field error, but that error is zod's
default invalid-type message, not the configured greater-than-zero message
the claim requires for non-numeric input. -/
theorem c1_counterexample :
    (createInvoice true (.str "c1") (.str "abc") (.str "pending")
      "2026-10-12").1 =
      .invoiceFailure ⟨[], ["Expected number, received nan"], []⟩
        "Missing Fields. Failed to Create Invoice." ∧
    ["Expected number, received nan"] ≠
      ["Please enter an amount greater than $0."] :=
  ⟨by decide, by decide⟩

/-- Claim C1 (amended): for both createInvoice and updateInvoice, an amount
that coerces to a number ≤ 0 produces a failure whose amount field error is
exactly `["Please enter an amount greater than $0."]`, while a non-numeric
(NaN) amount produces a failure whose amount field error is exactly
`["Expected number, received nan"]`; in every such case no store statement is
attempted (the effect trace is empty). -/
theorem c1_amount_validation (dbOk : Bool) (cid st amt : FormVal)
    (today id : String) :
    (∀ d : DecNum, jsNumber amt = some d → d.num ≤ 0 →
      createInvoice dbOk cid amt st today =
        (.invoiceFailure
          ⟨exErrs (zCustomerId cid),
            ["Please enter an amount greater than $0."], exErrs (zStatus st)⟩
          "Missing Fields. Failed to Create Invoice.", []) ∧
      updateInvoice dbOk id cid amt st =
        (.invoiceFailure
          ⟨exErrs (zCustomerId cid),
            ["Please enter an amount greater than $0."], exErrs (zStatus st)⟩
          "Missing Fields. Failed to Update Invoice.", [])) ∧
    (jsNumber amt = none →
      createInvoice dbOk cid amt st today =
        (.invoiceFailure
          ⟨exErrs (zCustomerId cid), ["Expected number, received nan"],
            exErrs (zStatus st)⟩
          "Missing Fields. Failed to Create Invoice.", []) ∧
      updateInvoice dbOk id cid amt st =
        (.invoiceFailure
          ⟨exErrs (zCustomerId cid), ["Expected number, received nan"],
            exErrs (zStatus st)⟩
          "Missing Fields. Failed to Update Invoice.", [])) := by
  constructor
  · intro d hd hle
    have hz : zAmount amt = .error "Please enter an amount greater than $0." := by
      unfold zAmount
      rw [hd]
      have hg : d.gtZero = false := by
        unfold DecNum.gtZero
        simp
        omega
      simp [hg]
    have hp := parseInvoiceFields_amount_error cid st hz
    exact ⟨createInvoice_parse_error dbOk today hp,
      updateInvoice_parse_error dbOk id hp⟩
  · intro hd
    have hz : zAmount amt = .error "Expected number, received nan" := by
      unfold zAmount
      rw [hd]
    have hp := parseInvoiceFields_amount_error cid st hz
    exact ⟨createInvoice_parse_error dbOk today hp,
      updateInvoice_parse_error dbOk id hp⟩

/-- Claim C1, witness: the amended theorem applied at the zero amount. -/
theorem c1_witness :
    createInvoice true (.str "c1") (.str "0") (.str "pending") "2026-10-12" =
      (.invoiceFailure ⟨[], ["Please enter an amount greater than $0."], []⟩
        "Missing Fields. Failed to Create Invoice.", []) ∧
    updateInvoice true "inv1" (.str "c1") (.str "0") (.str "pending") =
      (.invoiceFailure ⟨[], ["Please enter an amount greater than $0."], []⟩
        "Missing Fields. Failed to Update Invoice.", []) := by
  have h := (c1_amount_validation true (.str "c1") (.str "pending")
    (.str "0") "2026-10-12" "inv1").1 ⟨0, 0⟩ (by decide) (by decide)
  exact ⟨h.1, h.2⟩

/-- Claim C2: when the file write fails (`fsOk = false`), updateCustomer
never attempts a store UPDATE, never navigates, and — whenever the write was
actually attempted — returns the file-save failure message. -/
theorem c2_file_write_failure (dbOk : Bool) (id : String)
    (nv ev iv uv : FormVal) (now : Clock) :
    (∀ t sets wid, Effect.sqlUpdate t sets wid ∉
      (updateCustomer dbOk false id nv ev iv uv now).2) ∧
    (∀ p, (updateCustomer dbOk false id nv ev iv uv now).1 ≠ .redirected p) ∧
    (∀ p, Effect.fileWrite p ∈ (updateCustomer dbOk false id nv ev iv uv now).2 →
      (updateCustomer dbOk false id nv ev iv uv now).1 =
        .msg "Error occured al grabar archivo.") := by
  cases hp : parseCustomerFields nv ev iv uv with
  | error e => simp [updateCustomer, hp]
  | ok f => cases hf : uv.falsy <;> simp [updateCustomer, hp, hf]

/-- Claim C2, witness: a concrete failed write — the message comes back and
no UPDATE appears in the trace. -/
theorem c2_witness :
    (updateCustomer true false "cus1" (.str "Ana") (.str "ana@mail.com")
      (.str "/customers/old.png") (.file ⟨"new pic.png", 1000, "image/png"⟩)
      ⟨2026, 1, 2, 3, 4, 5, 6⟩).1 = .msg "Error occured al grabar archivo." ∧
    (∀ t sets wid, Effect.sqlUpdate t sets wid ∉
      (updateCustomer true false "cus1" (.str "Ana") (.str "ana@mail.com")
        (.str "/customers/old.png") (.file ⟨"new pic.png", 1000, "image/png"⟩)
        ⟨2026, 1, 2, 3, 4, 5, 6⟩).2) := by
  have h := c2_file_write_failure true "cus1" (.str "Ana") (.str "ana@mail.com")
    (.str "/customers/old.png") (.file ⟨"new pic.png", 1000, "image/png"⟩)
    ⟨2026, 1, 2, 3, 4, 5, 6⟩
  exact ⟨h.2.2 "/public/customers/new_pic_20260102_030405_006.png" (by decide),
    h.1⟩

/-- Claim C3, counterexample: a store failure inside the delete actions is
not caught — it propagates to the caller instead of being converted into a
failure message. -/
theorem c3_counterexample :
    (deleteInvoice false "inv1").1 = .thrown ∧
    (deleteCustomer false "cus1").1 = .thrown :=
  ⟨by decide, by decide⟩

/-- Claim C3 (amended): the four validated form actions convert every store
failure into a generic message naming the entity and operation and never let
one propagate, but deleteInvoice and deleteCustomer do not catch — a store
failure there propagates uncaught. -/
theorem c3_store_error_handling (dbOk fsOk : Bool) (id today : String)
    (cid amt st nv ev iv uv : FormVal) (now : Clock) :
    (createInvoice dbOk cid amt st today).1 ≠ .thrown ∧
    (updateInvoice dbOk id cid amt st).1 ≠ .thrown ∧
    (createCustomer dbOk nv ev iv).1 ≠ .thrown ∧
    (updateCustomer dbOk fsOk id nv ev iv uv now).1 ≠ .thrown ∧
    (∀ f, parseInvoiceFields cid amt st = .ok f →
      (createInvoice false cid amt st today).1 =
        .msg "Database Error: Failed to Create Invoice." ∧
      (updateInvoice false id cid amt st).1 =
        .msg "Database Error: Failed to Update Invoice.") ∧
    (∀ f, parseCustomerFields nv ev iv uv = .ok f → uv.falsy = false →
      (updateCustomer false true id nv ev iv uv now).1 =
        .msg "Database Error: Failed to Update Customer.") ∧
    (deleteInvoice false id).1 = .thrown ∧
    (deleteCustomer false id).1 = .thrown := by
  refine ⟨?_, ?_, ?_, ?_, ?_, ?_, by simp [deleteInvoice], by simp [deleteCustomer]⟩
  · cases hp : parseInvoiceFields cid amt st <;> cases dbOk <;>
      simp [createInvoice, hp]
  · cases hp : parseInvoiceFields cid amt st <;> cases dbOk <;>
      simp [updateInvoice, hp]
  · cases hp : parseCreateCustomer nv ev iv <;> cases dbOk <;>
      simp [createCustomer, hp]
  · cases hp : parseCustomerFields nv ev iv uv with
    | error e => simp [updateCustomer, hp]
    | ok f => cases hf : uv.falsy <;> cases fsOk <;> cases dbOk <;>
        simp [updateCustomer, hp, hf]
  · intro f hf
    exact ⟨by simp [createInvoice, hf], by simp [updateInvoice, hf]⟩
  · intro f hf hfl
    simp [updateCustomer, hf, hfl]

/-- Claim C3, witness: concrete store failures — the four validated actions
answer with their entity-specific messages. -/
theorem c3_witness :
    (createInvoice false (.str "c1") (.str "5") (.str "paid")
      "2026-10-12").1 = .msg "Database Error: Failed to Create Invoice." ∧
    (updateInvoice false "inv1" (.str "c1") (.str "5") (.str "paid")).1 =
      .msg "Database Error: Failed to Update Invoice." ∧
    (updateCustomer false true "inv1" (.str "Ana") (.str "ana@mail.com")
      (.str "/u.png") (.file ⟨"p.png", 9, "image/png"⟩)
      ⟨2026, 1, 2, 3, 4, 5, 6⟩).1 =
      .msg "Database Error: Failed to Update Customer." := by
  have h := c3_store_error_handling false true "inv1" "2026-10-12"
    (.str "c1") (.str "5") (.str "paid") (.str "Ana") (.str "ana@mail.com")
    (.str "/u.png") (.file ⟨"p.png", 9, "image/png"⟩) ⟨2026, 1, 2, 3, 4, 5, 6⟩
  refine ⟨(h.2.2.2.2.1 ⟨"c1", ⟨5, 0⟩, .paid⟩ (by decide)).1,
    (h.2.2.2.2.1 ⟨"c1", ⟨5, 0⟩, .paid⟩ (by decide)).2,
    h.2.2.2.2.2.1 ⟨"Ana", "ana@mail.com", "/u.png", ⟨"p.png", 9, "image/png"⟩⟩
      (by decide) (by decide)⟩

/-- Claim C4, counterexample: a concrete valid submission — the UPDATE sets
only `customer_id`, `amount` and `status`; `date` is not among the updated
columns, so not all four mutable fields are updated. -/
theorem c4_counterexample :
    updateInvoice true "inv1" (.str "c1") (.str "5") (.str "paid") =
      (.redirected "/dashboard/invoices",
       [.sqlUpdate "invoices"
          [("customer_id", .s "c1"), ("amount", .n ⟨500, 0⟩),
           ("status", .s "paid")] "inv1",
        .revalidate "/dashboard/invoices"]) ∧
    "date" ∉ ([("customer_id", SqlVal.s "c1"), ("amount", SqlVal.n ⟨500, 0⟩),
      ("status", SqlVal.s "paid")].map Prod.fst) :=
  ⟨by decide, by decide⟩

/-- Claim C4 (amended): for every valid submission, updateInvoice issues one
UPDATE on the row `id` that sets exactly the three columns `customer_id`,
`amount` (in minor units) and `status`; the `date` column is not updated. -/
theorem c4_update_sets_three_columns (dbOk : Bool) (id : String)
    (cid amt st : FormVal) :
    ∀ f, parseInvoiceFields cid amt st = .ok f →
      (updateInvoice dbOk id cid amt st).2.head? =
        some (.sqlUpdate "invoices"
          [("customer_id", .s f.customerId), ("amount", .n f.amount.mul100),
           ("status", .s f.status.toStr)] id) ∧
      (∀ t sets wid,
        Effect.sqlUpdate t sets wid ∈ (updateInvoice dbOk id cid amt st).2 →
          sets.map Prod.fst = ["customer_id", "amount", "status"]) := by
  intro f hf
  cases dbOk <;> simp [updateInvoice, hf] <;>
    intro t sets wid ht hs hw <;> subst hs <;> rfl

/-- Claim C4, witness: the amended theorem at a concrete valid submission. -/
theorem c4_witness :
    (updateInvoice true "inv9" (.str "c9") (.str "2.50") (.str "pending")).2.head? =
      some (.sqlUpdate "invoices"
        [("customer_id", .s "c9"), ("amount", .n (DecNum.mul100 ⟨25, 1⟩)),
         ("status", .s "pending")] "inv9") ∧
    (∀ t sets wid,
      Effect.sqlUpdate t sets wid ∈
        (updateInvoice true "inv9" (.str "c9") (.str "2.50") (.str "pending")).2 →
        sets.map Prod.fst = ["customer_id", "amount", "status"]) := by
  have h := c4_update_sets_three_columns true "inv9" (.str "c9") (.str "2.50")
    (.str "pending") ⟨"c9", ⟨25, 1⟩, .pending⟩ (by decide)
  exact ⟨h.1, h.2⟩

lemma natStr_len_le_two {n : Nat} (h : n ≤ 99) : (natStr n).length ≤ 2 := by
  have e2 : (10 : ℕ) ^ 2 = 100 := by norm_num
  exact natStr_len_le (by omega) (by omega)

lemma natStr_len_le_three {n : Nat} (h : n ≤ 999) : (natStr n).length ≤ 3 := by
  have e3 : (10 : ℕ) ^ 3 = 1000 := by norm_num
  exact natStr_len_le (by omega) (by omega)

lemma strAppend_digits {a b : String} (ha : ∀ c ∈ a.data, c.isDigit)
    (hb : ∀ c ∈ b.data, c.isDigit) : ∀ c ∈ (a ++ b).data, c.isDigit := by
  intro c hc
  rw [String.data_append] at hc
  rcases List.mem_append.1 hc with h | h
  · exact ha c h
  · exact hb c h

/-- Claim C5: `sanitizeAndTimestampFilename` returns
`<sanitized-base>_<YYYYMMDD>_<HHMMSS>_<mmm><original-extension>`: the output
is literally the sanitized basename, an underscore, the timestamp and the
original extension appended verbatim (untouched by sanitization); the
sanitized base contains only characters from `[A-Za-z0-9_-]`, every other
character having been replaced by `_`; and for a valid clock the three
timestamp blocks are 8, 6 and 3 digit characters separated by
underscores. -/
theorem c5_sanitize_filename (name : String) (c : Clock) (h : c.valid) :
    sanitizeAndTimestampFilename name c =
      sanitizeBase (basenameMinus name (extname name)) ++ "_" ++
        timestampString c ++ extname name ∧
    (∀ ch ∈ (sanitizeBase (basenameMinus name (extname name))).data,
      keepChar ch) ∧
    (∀ s : String, (sanitizeBase s).data =
      s.data.map (fun ch => if keepChar ch then ch else '_')) ∧
    (∃ dateS timeS msS : String,
      timestampString c = dateS ++ "_" ++ timeS ++ "_" ++ msS ∧
      dateS.length = 8 ∧ timeS.length = 6 ∧ msS.length = 3 ∧
      (∀ ch ∈ dateS.data, ch.isDigit) ∧ (∀ ch ∈ timeS.data, ch.isDigit) ∧
      (∀ ch ∈ msS.data, ch.isDigit)) := by
  obtain ⟨hy1, hy2, hm1, hm2, hd1, hd2, hh, hmi, hs, hms⟩ := h
  refine ⟨rfl, ?_, fun s => rfl, ?_⟩
  · intro ch hc
    simp [sanitizeBase] at hc
    obtain ⟨a, -, rfl⟩ := hc
    cases hk : keepChar a with
    | false =>
      simp [hk]
      decide
    | true => simp [hk]
  · refine ⟨natStr c.year ++ padStart 2 (natStr c.month) ++
      padStart 2 (natStr c.day),
      padStart 2 (natStr c.hours) ++ padStart 2 (natStr c.minutes) ++
        padStart 2 (natStr c.seconds),
      padStart 3 (natStr c.ms), ?_, ?_, ?_, ?_, ?_, ?_, ?_⟩
    · apply String.ext
      simp [timestampString, String.data_append, List.append_assoc]
    · rw [String.length_append, String.length_append,
        natStr_len_four hy1 hy2,
        padStart_len (natStr_len_le_two (by omega)),
        padStart_len (natStr_len_le_two (by omega))]
    · rw [String.length_append, String.length_append,
        padStart_len (natStr_len_le_two (by omega)),
        padStart_len (natStr_len_le_two (by omega)),
        padStart_len (natStr_len_le_two (by omega))]
    · exact padStart_len (natStr_len_le_three (by omega))
    · exact strAppend_digits (strAppend_digits (natStr_digits _)
        (padStart_digits (natStr_digits _))) (padStart_digits (natStr_digits _))
    · exact strAppend_digits (strAppend_digits
        (padStart_digits (natStr_digits _)) (padStart_digits (natStr_digits _)))
        (padStart_digits (natStr_digits _))
    · exact padStart_digits (natStr_digits _)

/-- Claim C5, witness: the theorem at the filename `"My Photo.JPG"` and a
concrete clock; the space becomes `_`, the `.JPG` extension survives
verbatim. -/
theorem c5_witness :
    sanitizeAndTimestampFilename "My Photo.JPG" ⟨2026, 10, 12, 1, 2, 3, 45⟩ =
      "My_Photo_20261012_010203_045.JPG" ∧
    (∀ ch ∈ (sanitizeBase (basenameMinus "My Photo.JPG"
      (extname "My Photo.JPG"))).data, keepChar ch) := by
  have h := c5_sanitize_filename "My Photo.JPG" ⟨2026, 10, 12, 1, 2, 3, 45⟩
    (by decide)
  exact ⟨by decide, h.2.1⟩

lemma contains_false_of_not_mem {l : List String} {x : String} (h : x ∉ l) :
    l.contains x = false := by
  cases hc : l.contains x
  · rfl
  · exact absurd ((contains_iff_mem l x).1 hc) h

lemma imageUploadIssues_some {v : FormVal} {f : FileV}
    (ht : imageUploadTransform v = some f) :
    imageUploadIssues v =
      (if 5 * 1024 * 1024 < f.size then ["Max file size allowed is 5MB"]
       else []) ++
      (if f.type ∈ allowedImageMimes then []
       else ["File must be an image (jpeg, jpg, png, webp)"]) := by
  unfold imageUploadIssues imageUploadCheck
  rw [ht]
  by_cases hs : 5 * 1024 * 1024 < f.size <;>
    by_cases hm : f.type ∈ allowedImageMimes <;>
    simp [hs, hm]

/-- Claim C6: validation of `image_upload` behaves exactly as described: a
non-file value yields the single fatal issue `"Not a file"` and no further
file check runs; for a file, size over `5*1024*1024` yields the max-size
issue and a MIME type outside the allowed set yields the image-type issue;
the two non-fatal issues accumulate in order on the same field instead of
short-circuiting; a small file of an allowed type passes; and the flattened
customer-form errors carry exactly these issues on `image_upload`. -/
theorem c6_image_upload_validation (v : FormVal) (f : FileV) :
    (imageUploadTransform v = none → imageUploadIssues v = ["Not a file"]) ∧
    (imageUploadTransform v = some f → 5 * 1024 * 1024 < f.size →
      "Max file size allowed is 5MB" ∈ imageUploadIssues v) ∧
    (imageUploadTransform v = some f → f.type ∉ allowedImageMimes →
      "File must be an image (jpeg, jpg, png, webp)" ∈ imageUploadIssues v) ∧
    (imageUploadTransform v = some f → 5 * 1024 * 1024 < f.size →
      f.type ∉ allowedImageMimes →
      imageUploadIssues v =
        ["Max file size allowed is 5MB",
         "File must be an image (jpeg, jpg, png, webp)"]) ∧
    (imageUploadTransform v = some f → f.size ≤ 5 * 1024 * 1024 →
      f.type ∈ allowedImageMimes → imageUploadCheck v = .ok f) ∧
    (∀ nv ev iv e, parseCustomerFields nv ev iv v = .error e →
      e.image_upload = imageUploadIssues v) := by
  refine ⟨?_, ?_, ?_, ?_, ?_,
    fun nv ev iv e h => parseCustomerFields_image_upload h⟩
  · intro ht
    have hc : imageUploadCheck v = .error ["Not a file"] := by
      unfold imageUploadCheck
      rw [ht]
    unfold imageUploadIssues
    rw [hc]
  · intro ht hsize
    rw [imageUploadIssues_some ht]
    simp [hsize]
  · intro ht hmime
    rw [imageUploadIssues_some ht]
    simp [hmime]
  · intro ht hsize hmime
    rw [imageUploadIssues_some ht]
    simp [hsize, hmime]
  · intro ht hsize hmime
    unfold imageUploadCheck
    rw [ht]
    simp [show ¬ (5 * 1024 * 1024 < f.size) from by omega, hmime]

/-- Claim C6, witness: concrete inputs — a string form value, an oversized
non-image file (both issues accumulate), and a valid 2MB PNG. -/
theorem c6_witness :
    imageUploadIssues (.str "nope") = ["Not a file"] ∧
    imageUploadIssues (.file ⟨"big.pdf", 6 * 1024 * 1024, "application/pdf"⟩) =
      ["Max file size allowed is 5MB",
       "File must be an image (jpeg, jpg, png, webp)"] ∧
    imageUploadCheck (.file ⟨"ok.png", 2 * 1024 * 1024, "image/png"⟩) =
      .ok ⟨"ok.png", 2 * 1024 * 1024, "image/png"⟩ := by
  have h1 := c6_image_upload_validation (.str "nope") ⟨"", 0, ""⟩
  have h2 := c6_image_upload_validation
    (.file ⟨"big.pdf", 6 * 1024 * 1024, "application/pdf"⟩)
    ⟨"big.pdf", 6 * 1024 * 1024, "application/pdf"⟩
  have h3 := c6_image_upload_validation
    (.file ⟨"ok.png", 2 * 1024 * 1024, "image/png"⟩)
    ⟨"ok.png", 2 * 1024 * 1024, "image/png"⟩
  exact ⟨h1.1 (by decide),
    h2.2.2.2.1 (by decide) (by decide) (by decide),
    h3.2.2.2.2.1 (by decide) (by decide) (by decide)⟩

/-- Claim C8, counterexample: the empty-string name passes name validation
(no name field error at all), and a missing (`null`) name fails with
`"Caracteres no válidos"` — not with `"Ingrese el nombre del cliente"` as the
claim requires. -/
theorem c8_counterexample :
    zName (.str "") = .ok "" ∧
    zName .null = .error "Caracteres no válidos" ∧
    parseCreateCustomer .null (.str "a@b.co") (.str "/img.png") =
      .error ⟨["Caracteres no válidos"], [], [], ["Not a file"]⟩ ∧
    "Caracteres no válidos" ≠ "Ingrese el nombre del cliente" :=
  ⟨by decide, by decide, by decide, by decide⟩

/-- Claim C8 (amended): name validation accepts every string, the empty one
included; `null` or a non-string value fails with `"Caracteres no válidos"`;
`"Ingrese el nombre del cliente"` is configured only for `undefined` input,
which the action never passes; and in the create flow the whole validation
always fails anyway (on `image_upload`), with the name-field errors exactly
those of the name validator. -/
theorem c8_name_validation (s : String) (nv ev iv : FormVal) (dbOk : Bool) :
    zName (.str s) = .ok s ∧
    zName .jsUndefined = .error "Ingrese el nombre del cliente" ∧
    zName .null = .error "Caracteres no válidos" ∧
    (∀ f : FileV, zName (.file f) = .error "Caracteres no válidos") ∧
    (∀ l : List FileV, zName (.fileList l) = .error "Caracteres no válidos") ∧
    parseCreateCustomer nv ev iv =
      .error ⟨exErrs (zName nv), exErrs (zEmail ev), exErrs (zStringField iv),
        ["Not a file"]⟩ ∧
    (createCustomer dbOk nv ev iv).1 =
      .customerFailure
        ⟨exErrs (zName nv), exErrs (zEmail ev), exErrs (zStringField iv),
          ["Not a file"]⟩ "Missing Fields. Failed to Create Invoice." := by
  refine ⟨rfl, rfl, rfl, fun f => rfl, fun l => rfl,
    parseCreateCustomer_error nv ev iv, ?_⟩
  simp [createCustomer, parseCreateCustomer_error nv ev iv]

/-- Claim C10: on validation failure both customer actions return messages
naming the invoice entity — createCustomer says "Failed to Create Invoice."
and updateCustomer says "Failed to Update Invoice." — although both operate
on customers. -/
theorem c10_wrong_entity_messages (dbOk fsOk : Bool) (id : String)
    (nv ev iv uv : FormVal) (now : Clock) :
    (∀ e, parseCreateCustomer nv ev iv = .error e →
      (createCustomer dbOk nv ev iv).1 =
        .customerFailure e "Missing Fields. Failed to Create Invoice.") ∧
    (∀ e, parseCustomerFields nv ev iv uv = .error e →
      (updateCustomer dbOk fsOk id nv ev iv uv now).1 =
        .customerFailure e "Missing Fields. Failed to Update Invoice.") := by
  constructor
  · intro e h
    simp [createCustomer, h]
  · intro e h
    simp [updateCustomer, h]

/-- Claim C10, witness: concrete failing submissions for both actions. -/
theorem c10_witness :
    (createCustomer true (.str "Ana") (.str "ana@mail.com") (.str "/i.png")).1 =
      .customerFailure ⟨[], [], [], ["Not a file"]⟩
        "Missing Fields. Failed to Create Invoice." ∧
    (updateCustomer true true "cus1" .null (.str "bad") (.str "/i.png")
      (.str "nofile") ⟨2026, 1, 2, 3, 4, 5, 6⟩).1 =
      .customerFailure ⟨["Caracteres no válidos"], ["Email no válido"], [],
        ["Not a file"]⟩ "Missing Fields. Failed to Update Invoice." := by
  have h1 := (c10_wrong_entity_messages true true "cus1" (.str "Ana")
    (.str "ana@mail.com") (.str "/i.png") (.str "x")
    ⟨2026, 1, 2, 3, 4, 5, 6⟩).1 ⟨[], [], [], ["Not a file"]⟩ (by decide)
  have h2 := (c10_wrong_entity_messages true true "cus1" .null (.str "bad")
    (.str "/i.png") (.str "nofile") ⟨2026, 1, 2, 3, 4, 5, 6⟩).2
    ⟨["Caracteres no válidos"], ["Email no válido"], [], ["Not a file"]⟩
    (by decide)
  exact ⟨h1, h2⟩

/-- Claim C9: cache invalidation and navigation happen only after a
successful mutation — on validation failure the effect trace is empty and the
result is not a redirect; with the store (or, for updateCustomer, the file
write) failing no invalidation and no redirect occurs; and the delete actions
invalidate their listing exactly on success and never navigate. -/
theorem c9_invalidate_navigate_discipline (dbOk fsOk : Bool)
    (invId today : String) (cid amt st nv ev iv uv : FormVal) (now : Clock) :
    (∀ e, parseInvoiceFields cid amt st = .error e →
      (createInvoice dbOk cid amt st today).2 = [] ∧
      (∀ p, (createInvoice dbOk cid amt st today).1 ≠ .redirected p)) ∧
    (∀ p, Effect.revalidate p ∉ (createInvoice false cid amt st today).2) ∧
    (∀ p, (createInvoice false cid amt st today).1 ≠ .redirected p) ∧
    (∀ e, parseInvoiceFields cid amt st = .error e →
      (updateInvoice dbOk invId cid amt st).2 = [] ∧
      (∀ p, (updateInvoice dbOk invId cid amt st).1 ≠ .redirected p)) ∧
    (∀ p, Effect.revalidate p ∉ (updateInvoice false invId cid amt st).2) ∧
    (∀ p, (updateInvoice false invId cid amt st).1 ≠ .redirected p) ∧
    (∀ e, parseCreateCustomer nv ev iv = .error e →
      (createCustomer dbOk nv ev iv).2 = [] ∧
      (∀ p, (createCustomer dbOk nv ev iv).1 ≠ .redirected p)) ∧
    (∀ p, Effect.revalidate p ∉ (createCustomer false nv ev iv).2) ∧
    (∀ p, (createCustomer false nv ev iv).1 ≠ .redirected p) ∧
    (∀ e, parseCustomerFields nv ev iv uv = .error e →
      (updateCustomer dbOk fsOk invId nv ev iv uv now).2 = [] ∧
      (∀ p, (updateCustomer dbOk fsOk invId nv ev iv uv now).1 ≠
        .redirected p)) ∧
    (∀ p, Effect.revalidate p ∉
      (updateCustomer dbOk false invId nv ev iv uv now).2) ∧
    (∀ p, Effect.revalidate p ∉
      (updateCustomer false fsOk invId nv ev iv uv now).2) ∧
    (∀ p, (updateCustomer false fsOk invId nv ev iv uv now).1 ≠
      .redirected p) ∧
    (∀ p, (deleteInvoice dbOk invId).1 ≠ .redirected p) ∧
    Effect.revalidate "/dashboard/invoices" ∈ (deleteInvoice true invId).2 ∧
    (∀ p, Effect.revalidate p ∉ (deleteInvoice false invId).2) ∧
    (∀ p, (deleteCustomer dbOk invId).1 ≠ .redirected p) ∧
    Effect.revalidate "/dashboard/customers" ∈ (deleteCustomer true invId).2 ∧
    (∀ p, Effect.revalidate p ∉ (deleteCustomer false invId).2) := by
  refine ⟨?_, ?_, ?_, ?_, ?_, ?_, ?_, ?_, ?_, ?_, ?_, ?_, ?_, ?_, ?_, ?_, ?_,
    ?_, ?_⟩
  · intro e h
    exact ⟨by simp [createInvoice, h], by simp [createInvoice, h]⟩
  · cases hp : parseInvoiceFields cid amt st <;> simp [createInvoice, hp]
  · cases hp : parseInvoiceFields cid amt st <;> simp [createInvoice, hp]
  · intro e h
    exact ⟨by simp [updateInvoice, h], by simp [updateInvoice, h]⟩
  · cases hp : parseInvoiceFields cid amt st <;> simp [updateInvoice, hp]
  · cases hp : parseInvoiceFields cid amt st <;> simp [updateInvoice, hp]
  · intro e h
    exact ⟨by simp [createCustomer, h], by simp [createCustomer, h]⟩
  · cases hp : parseCreateCustomer nv ev iv <;> simp [createCustomer, hp]
  · cases hp : parseCreateCustomer nv ev iv <;> simp [createCustomer, hp]
  · intro e h
    exact ⟨by simp [updateCustomer, h], by simp [updateCustomer, h]⟩
  · cases hp : parseCustomerFields nv ev iv uv with
    | error e => simp [updateCustomer, hp]
    | ok f => cases hf : uv.falsy <;> simp [updateCustomer, hp, hf]
  · cases hp : parseCustomerFields nv ev iv uv with
    | error e => simp [updateCustomer, hp]
    | ok f => cases hf : uv.falsy <;> cases fsOk <;>
        simp [updateCustomer, hp, hf]
  · cases hp : parseCustomerFields nv ev iv uv with
    | error e => simp [updateCustomer, hp]
    | ok f => cases hf : uv.falsy <;> cases fsOk <;>
        simp [updateCustomer, hp, hf]
  · cases dbOk <;> simp [deleteInvoice]
  · simp [deleteInvoice]
  · simp [deleteInvoice]
  · cases dbOk <;> simp [deleteCustomer]
  · simp [deleteCustomer]
  · simp [deleteCustomer]

/-- Claim C9, witness: the theorem instantiated at concrete inputs — a
validation failure leaves an empty trace, a store failure produces no
redirect, a successful delete invalidates its listing, a failed delete does
not, and deletes never navigate. -/
theorem c9_witness :
    (createInvoice true (.str "c1") (.str "0") (.str "paid") "2026-10-12").2 =
      [] ∧
    (∀ p, (createInvoice false (.str "c1") (.str "0") (.str "paid")
      "2026-10-12").1 ≠ .redirected p) ∧
    Effect.revalidate "/dashboard/invoices" ∈ (deleteInvoice true "i1").2 ∧
    (∀ p, Effect.revalidate p ∉ (deleteInvoice false "i1").2) ∧
    (∀ p, (deleteCustomer true "i1").1 ≠ .redirected p) ∧
    Effect.revalidate "/dashboard/customers" ∈ (deleteCustomer true "i1").2 := by
  obtain ⟨h1, h2, h3, h4, h5, h6, h7, h8, h9, h10, h11, h12, h13, h14, h15,
    h16, h17, h18, h19⟩ := c9_invalidate_navigate_discipline true true "i1"
    "2026-10-12" (.str "c1") (.str "0") (.str "paid") (.str "n") (.str "e")
    (.str "u") (.str "x") ⟨2026, 1, 2, 3, 4, 5, 6⟩
  refine ⟨(h1 ⟨[], ["Please enter an amount greater than $0."], []⟩
    (by decide)).1, ?_, h15, h16, h17, h18⟩
  obtain ⟨g1, g2, g3, g4, g5, g6, g7, g8, g9, g10, g11, g12, g13, g14, g15,
    g16, g17, g18, g19⟩ := c9_invalidate_navigate_discipline false true "i1"
    "2026-10-12" (.str "c1") (.str "0") (.str "paid") (.str "n") (.str "e")
    (.str "u") (.str "x") ⟨2026, 1, 2, 3, 4, 5, 6⟩
  exact g3

/-- First scaling loop of binary64 rounding: double the denominator while the
quotient is at least `2 ^ 53`.  Structural in the fuel argument so that
concrete instances evaluate in the kernel; the loop leaves the value
`num / den * 2 ^ e` unchanged. -/
def scaleDown : Nat → Nat → Nat → Int → Nat × Int
  | 0, _, den, e => (den, e)
  | fuel + 1, num, den, e =>
    if 9007199254740992 * den ≤ num then scaleDown fuel num (den * 2) (e + 1)
    else (den, e)

/-- Second scaling loop: double the numerator while the quotient is below
`2 ^ 52`. -/
def scaleUp : Nat → Nat → Nat → Int → Nat × Int
  | 0, num, _, e => (num, e)
  | fuel + 1, num, den, e =>
    if num < 4503599627370496 * den then scaleUp fuel (num * 2) den (e - 1)
    else (num, e)

/-- Strip factors of two from a significand, giving each dyadic rational one
canonical significand–exponent representation. -/
def stripTwos : Nat → Int → Int → Int × Int
  | 0, s, e => (s, e)
  | fuel + 1, s, e =>
    if s % 2 = 0 ∧ s ≠ 0 then stripTwos fuel (s / 2) (e + 1) else (s, e)

/-- A finite IEEE-754 binary64 datum in canonical significand–exponent form
(`sig` odd, or zero with exponent zero); its value is `sig * 2 ^ exp`.  The
model covers the normal finite range — which contains every invoice amount
this pipeline handles — with no overflow, underflow or subnormal cases. -/
structure Float64 where
  sig : Int
  exp : Int
deriving DecidableEq

/-- The exact rational value of a binary64 datum. -/
def Float64.valQ (x : Float64) : ℚ :=
  if 0 ≤ x.exp then (x.sig : ℚ) * 2 ^ x.exp.toNat
  else (x.sig : ℚ) / 2 ^ (-x.exp).toNat

/-- Round a positive rational `a / b` to the nearest binary64 value, ties to
even: scale the fraction so the quotient lies in `[2^52, 2^53)`, divide with
remainder, round on the remainder, and canonicalize. -/
def roundPos (a b : Nat) : Float64 :=
  let d1 := scaleDown (a + 1) a b 0
  let n1 := scaleUp (b + 53) a d1.1 d1.2
  let s0 := n1.1 / d1.1
  let r := n1.1 % d1.1
  let s1 := if d1.1 < 2 * r ∨ (2 * r = d1.1 ∧ s0 % 2 = 1) then s0 + 1 else s0
  let c := stripTwos 60 (s1 : Int) n1.2
  ⟨c.1, c.2⟩

/-- Round a rational `num / den` (`den > 0`) to the nearest binary64 value
(round to nearest, ties to even; zero directly, negative numerators by the
symmetry of the rounding). -/
def roundQ (num : Int) (den : Nat) : Float64 :=
  if num = 0 then ⟨0, 0⟩
  else if 0 < num then roundPos num.toNat den
  else
    let p := roundPos (Int.toNat (-num)) den
    ⟨-p.sig, p.exp⟩

/-- The binary64 value of an exact decimal: the double JavaScript actually
holds once `Number()` has parsed the literal (ECMA-262 requires the correctly
rounded nearest double). -/
def toBinary64 (d : DecNum) : Float64 := roundQ d.num (10 ^ d.exp)

/-- IEEE-754 binary64 multiplication: round the exact (dyadic) product to the
nearest value, ties to even.  At most one of the two `toNat` exponents is
nonzero, so the fraction handed to `roundQ` is the exact product. -/
def Float64.mul (x y : Float64) : Float64 :=
  roundQ (x.sig * y.sig * 2 ^ (x.exp + y.exp).toNat)
    (2 ^ (Int.toNat (-(x.exp + y.exp))))

/-- The value the code computes at `const amountInCents = amount * 100`
(actions.ts:138): the binary64 product of the coerced amount and 100, with no
rounding-to-integer step.  The `DecNum` carried in the modelled effect traces
is the exact-decimal surrogate of this double. -/
def amountInCentsDouble (d : DecNum) : Float64 :=
  Float64.mul (toBinary64 d) (toBinary64 ⟨100, 0⟩)

set_option maxRecDepth 40000

lemma valQ_eq (x : Float64) : x.valQ = (x.sig : ℚ) * (2 : ℚ) ^ x.exp := by
  unfold Float64.valQ
  by_cases h : 0 ≤ x.exp
  · rw [if_pos h, ← zpow_natCast (2 : ℚ) x.exp.toNat, Int.toNat_of_nonneg h]
  · rw [if_neg h, ← zpow_natCast (2 : ℚ) (-x.exp).toNat,
      Int.toNat_of_nonneg (by omega), div_eq_mul_inv, ← zpow_neg, neg_neg]

lemma stripTwos_val : ∀ (fuel : Nat) (s e : Int),
    ((stripTwos fuel s e).1 : ℚ) * (2 : ℚ) ^ (stripTwos fuel s e).2 =
      (s : ℚ) * (2 : ℚ) ^ e := by
  intro fuel
  induction fuel with
  | zero => intro s e; rfl
  | succ fuel ih =>
    intro s e
    by_cases h : s % 2 = 0 ∧ s ≠ 0
    · rw [show stripTwos (fuel + 1) s e = stripTwos fuel (s / 2) (e + 1) by
        simp [stripTwos, h]]
      rw [ih]
      obtain ⟨m, rfl⟩ : (2 : ℤ) ∣ s := Int.dvd_of_emod_eq_zero h.1
      rw [Int.mul_ediv_cancel_left m (by norm_num)]
      push_cast
      rw [zpow_add_one₀ (by norm_num : (2 : ℚ) ≠ 0)]
      ring
    · rw [show stripTwos (fuel + 1) s e = (s, e) by
        unfold stripTwos
        rw [if_neg h]]

lemma scaleDown_noop {fuel num den : Nat} {e : Int}
    (h : num < 9007199254740992 * den) :
    scaleDown fuel num den e = (den, e) := by
  cases fuel with
  | zero => rfl
  | succ fuel => simp [scaleDown, show ¬ 9007199254740992 * den ≤ num by omega]

lemma scaleUp_spec : ∀ (fuel num den : Nat) (e : Int), 0 < num → 0 < den →
    4503599627370496 * den ≤ num * 2 ^ fuel →
    ∃ k : Nat, scaleUp fuel num den e = (num * 2 ^ k, e - k) ∧
      4503599627370496 * den ≤ num * 2 ^ k := by
  intro fuel
  induction fuel with
  | zero =>
    intro num den e hn hd hf
    refine ⟨0, by simp [scaleUp], by simpa using hf⟩
  | succ fuel ih =>
    intro num den e hn hd hf
    by_cases h : num < 4503599627370496 * den
    · have hf2 : 4503599627370496 * den ≤ num * 2 * 2 ^ fuel := by
        calc 4503599627370496 * den ≤ num * 2 ^ (fuel + 1) := hf
        _ = num * 2 * 2 ^ fuel := by ring
      obtain ⟨k, hk1, hk2⟩ := ih (num * 2) den (e - 1) (by omega) hd hf2
      refine ⟨k + 1, ?_, ?_⟩
      · rw [show scaleUp (fuel + 1) num den e = scaleUp fuel (num * 2) den
          (e - 1) by simp [scaleUp, h]]
        rw [hk1, show num * 2 * 2 ^ k = num * 2 ^ (k + 1) by ring]
        congr 1
        push_cast
        omega
      · calc 4503599627370496 * den ≤ num * 2 * 2 ^ k := hk2
        _ = num * 2 ^ (k + 1) := by ring
    · refine ⟨0, ?_, ?_⟩
      · simp [scaleUp, h]
      · simpa using Nat.not_lt.1 h

lemma roundPos_exact {b n : Nat} (hb : 0 < b) (hn : 0 < n)
    (hlt : n < 9007199254740992) :
    (roundPos (n * b) b).valQ = n := by
  have hnd : scaleDown (n * b + 1) (n * b) b 0 = (b, 0) :=
    scaleDown_noop (by
      have := Nat.mul_lt_mul_of_lt_of_le hlt (le_refl b) hb
      omega)
  have hfuel : 4503599627370496 * b ≤ n * b * 2 ^ (b + 53) := by
    have h2 : b ≤ 2 ^ b := Nat.le_of_lt (Nat.lt_two_pow b)
    calc 4503599627370496 * b = 2 ^ 52 * b := by norm_num
    _ ≤ 2 ^ (b + 53) * b := Nat.mul_le_mul_right b
        (Nat.pow_le_pow_right (by omega) (by omega))
    _ = 1 * b * 2 ^ (b + 53) := by ring
    _ ≤ n * b * 2 ^ (b + 53) :=
        Nat.mul_le_mul_right _ (Nat.mul_le_mul_right b hn)
  obtain ⟨k, hup, -⟩ := scaleUp_spec (b + 53) (n * b) b 0
    (by positivity) hb hfuel
  unfold roundPos
  rw [hnd]
  simp only
  rw [hup]
  simp only
  rw [show n * b * 2 ^ k = n * 2 ^ k * b by ring,
    Nat.mul_div_cancel _ hb, Nat.mul_mod_left]
  rw [if_neg (by omega)]
  rw [valQ_eq]
  simp only
  rw [stripTwos_val]
  push_cast
  rw [mul_assoc, ← zpow_natCast (2 : ℚ) k,
    ← zpow_add₀ (by norm_num : (2 : ℚ) ≠ 0)]
  norm_num

lemma roundQ_exact {num : Int} {den n : Nat} (hd : 0 < den)
    (he : num = ((n * den : ℕ) : ℤ)) (hn : 0 < n)
    (hlt : n < 9007199254740992) :
    (roundQ num den).valQ = n := by
  have hp : 0 < num := by
    rw [he]
    exact_mod_cast Nat.mul_pos hn hd
  unfold roundQ
  rw [if_neg (by omega), if_pos hp]
  rw [show num.toNat = n * den by omega]
  exact roundPos_exact hd hn hlt

lemma dyadic_prod_val {x y : Float64} {n : Nat}
    (he : x.sig * y.sig * 2 ^ (x.exp + y.exp).toNat =
      ((n * 2 ^ (Int.toNat (-(x.exp + y.exp))) : ℕ) : ℤ)) :
    x.valQ * y.valQ = n := by
  rw [valQ_eq, valQ_eq]
  have hve : (x.sig : ℚ) * (2 : ℚ) ^ x.exp * ((y.sig : ℚ) * (2 : ℚ) ^ y.exp) =
      ((x.sig * y.sig : ℤ) : ℚ) * (2 : ℚ) ^ (x.exp + y.exp) := by
    push_cast
    rw [zpow_add₀ (by norm_num : (2 : ℚ) ≠ 0)]
    ring
  rw [hve]
  rcases le_or_lt 0 (x.exp + y.exp) with h | h
  · rw [show Int.toNat (-(x.exp + y.exp)) = 0 by omega] at he
    norm_num at he
    have h2 : ((x.exp + y.exp).toNat : ℤ) = x.exp + y.exp :=
      Int.toNat_of_nonneg h
    calc ((x.sig * y.sig : ℤ) : ℚ) * (2 : ℚ) ^ (x.exp + y.exp)
        = ((x.sig * y.sig : ℤ) : ℚ) *
            (2 : ℚ) ^ (((x.exp + y.exp).toNat : ℤ)) := by rw [h2]
    _ = ((x.sig * y.sig * 2 ^ (x.exp + y.exp).toNat : ℤ) : ℚ) := by
          rw [zpow_natCast]
          push_cast
          ring
    _ = n := by rw [he]; norm_num
  · rw [show (x.exp + y.exp).toNat = 0 by omega] at he
    have h2 : ((Int.toNat (-(x.exp + y.exp))) : ℤ) = -(x.exp + y.exp) :=
      Int.toNat_of_nonneg (by omega)
    have he2 : ((x.sig * y.sig : ℤ) : ℚ) =
        (n : ℚ) * (2 : ℚ) ^ (Int.toNat (-(x.exp + y.exp))) := by
      rw [show x.sig * y.sig = x.sig * y.sig * 2 ^ (0 : ℕ) by ring, he]
      push_cast
      ring
    rw [he2, ← zpow_natCast (2 : ℚ) (Int.toNat (-(x.exp + y.exp))), h2,
      zpow_neg, mul_assoc,
      inv_mul_cancel₀ (zpow_ne_zero _ (by norm_num : (2 : ℚ) ≠ 0)), mul_one]

lemma fmul_exact {x y : Float64} {n : Nat}
    (he : x.sig * y.sig * 2 ^ (x.exp + y.exp).toNat =
      ((n * 2 ^ (Int.toNat (-(x.exp + y.exp))) : ℕ) : ℤ))
    (hn : 0 < n) (hlt : n < 9007199254740992) :
    (Float64.mul x y).valQ = n := by
  unfold Float64.mul
  exact roundQ_exact (pow_pos (by omega) _) he hn hlt

/-- Claim C7, counterexample: for the amount `"1.15"` (coerced exact decimal
115/100) the binary64 product the program computes at `amount * 100` is
`8092405580431359 * 2 ^ (-46)` = 114.99999999999999…, which is not
`115 = 100 * 1.15`: the inserted value does not equal the validated amount
multiplied by 100, and it differs from the exact-decimal surrogate carried in
the modelled effect trace. -/
theorem c7_counterexample :
    jsStringToNumber "1.15" = some ⟨115, 2⟩ ∧
    amountInCentsDouble ⟨115, 2⟩ = ⟨8092405580431359, -46⟩ ∧
    Float64.valQ (amountInCentsDouble ⟨115, 2⟩) ≠ 100 * DecNum.val ⟨115, 2⟩ ∧
    DecNum.mul100 ⟨115, 2⟩ = ⟨115, 0⟩ ∧
    Float64.valQ (amountInCentsDouble ⟨115, 2⟩) ≠ DecNum.val ⟨115, 0⟩ := by
  have h2 : amountInCentsDouble ⟨115, 2⟩ = ⟨8092405580431359, -46⟩ := by decide
  refine ⟨by decide, h2, ?_, by decide, ?_⟩
  · rw [h2]
    norm_num [Float64.valQ, DecNum.val, show Int.toNat 46 = 46 from rfl]
  · rw [h2]
    norm_num [Float64.valQ, DecNum.val, show Int.toNat 46 = 46 from rfl]

/-- Claim C7 (amended): the derived amount in minor units is the IEEE-754
binary64 product of the coerced amount and 100 — plain float multiplication,
with no rounding-to-integer step.  Rounding to nearest is exact on integers
below `2 ^ 53`, so whenever the exact product of the coerced amount and 100
is such an integer, the inserted value is exactly the validated amount times
100: in particular `"10.50"` coerces to exactly 10.5 and reaches the INSERT
as exactly 1050 (and `"10.1"` lands on exactly 1010); for amounts such as
`"1.15"` the double product differs from the exact one.  The modelled effect
trace carries the exact-decimal surrogate `DecNum.mul100`, whose value is
exactly 100 times the amount. -/
theorem c7_amount_minor_units (dbOk : Bool) (cid amt st : FormVal)
    (today : String) :
    (∀ num den n : Nat, 0 < den → num = n * den → 0 < n →
      n < 9007199254740992 →
      Float64.valQ (roundQ ((num : ℕ) : ℤ) den) = n) ∧
    (∀ (x y : Float64) (n : Nat),
      x.sig * y.sig * 2 ^ (x.exp + y.exp).toNat =
        ((n * 2 ^ (Int.toNat (-(x.exp + y.exp))) : ℕ) : ℤ) →
      0 < n → n < 9007199254740992 →
      x.valQ * y.valQ = n ∧ (Float64.mul x y).valQ = n) ∧
    toBinary64 ⟨105, 1⟩ = ⟨21, -1⟩ ∧
    Float64.valQ (toBinary64 ⟨105, 1⟩) = DecNum.val ⟨105, 1⟩ ∧
    Float64.valQ (amountInCentsDouble ⟨105, 1⟩) = 1050 ∧
    Float64.valQ (amountInCentsDouble ⟨101, 1⟩) = 1010 ∧
    (∀ d : DecNum, (DecNum.mul100 d).val = 100 * d.val) ∧
    (∀ f, parseInvoiceFields cid amt st = .ok f →
      (createInvoice dbOk cid amt st today).2.head? =
        some (.sqlInsert "invoices"
          [("customer_id", .s f.customerId), ("amount", .n f.amount.mul100),
           ("status", .s f.status.toStr), ("date", .s today)])) := by
  refine ⟨?_, ?_, by decide, ?_, ?_, ?_, mul100_val, ?_⟩
  · intro num den n hd he hn hlt
    exact roundQ_exact hd (by exact_mod_cast he) hn hlt
  · intro x y n he hn hlt
    exact ⟨dyadic_prod_val he, fmul_exact he hn hlt⟩
  · rw [show toBinary64 ⟨105, 1⟩ = ⟨21, -1⟩ from by decide]
    norm_num [Float64.valQ, DecNum.val, show Int.toNat 1 = 1 from rfl]
  · rw [show amountInCentsDouble ⟨105, 1⟩ = ⟨525, 1⟩ from by decide]
    norm_num [Float64.valQ, show Int.toNat 1 = 1 from rfl]
  · rw [show amountInCentsDouble ⟨101, 1⟩ = ⟨505, 1⟩ from by decide]
    norm_num [Float64.valQ, show Int.toNat 1 = 1 from rfl]
  · intro f hf
    cases dbOk <;> simp [createInvoice, hf]

/-- Claim C7, witness: the amended theorem applied at concrete inputs — the
integer 300 rounds exactly, the product 3 × 100 is computed exactly by the
double multiplication, and the INSERT of a concrete valid submission carries
the derived amount. -/
theorem c7_witness :
    Float64.valQ (roundQ ((300 : ℕ) : ℤ) 1) = 300 ∧
    Float64.valQ ⟨3, 0⟩ * Float64.valQ ⟨25, 2⟩ = 300 ∧
    Float64.valQ (Float64.mul ⟨3, 0⟩ ⟨25, 2⟩) = 300 ∧
    (createInvoice true (.str "c7") (.str "3") (.str "paid")
      "2026-01-01").2.head? =
      some (.sqlInsert "invoices"
        [("customer_id", .s "c7"), ("amount", .n (DecNum.mul100 ⟨3, 0⟩)),
         ("status", .s "paid"), ("date", .s "2026-01-01")]) := by
  have h := c7_amount_minor_units true (.str "c7") (.str "3") (.str "paid")
    "2026-01-01"
  have h2 := h.2.1 ⟨3, 0⟩ ⟨25, 2⟩ 300 (by decide) (by decide) (by decide)
  exact ⟨h.1 300 1 300 (by decide) (by decide) (by decide) (by decide),
    h2.1, h2.2, h.2.2.2.2.2.2.2 ⟨"c7", ⟨3, 0⟩, .paid⟩ (by decide)⟩
